import Mathlib

/-!
# Verification of the virtual-cursor overlay controller

A shallow embedding of `VirtualCursorView` (src/plugin.ts of
obsidian-virtual-cursor): a CodeMirror view plugin that keeps a floating
caret overlay aligned with the insertion point.

The DOM, the timer world and the host editor are modelled explicitly:

* `Rect` — a screen rectangle (`Rect` / `DOMRect`); coordinates as `Int`.
* `Env` — what the controller queries from the host view: focus,
  collapsed-selection flag, head position, the outcome of
  `coordsAtPos(head, -1)`, and the scroll container's bounding rect.
* `VCState` — the instance fields of `VirtualCursorView` plus the owned
  DOM/timer facts: overlay style (display/top/left/height), the phase
  (dimmed) class, pending `window` timeouts as `(id, fireAt)` pairs, and
  ghost instrumentation (`measureRequests` counts `view.requestMeasure`
  calls, `lastMapOk` records whether the most recent position-to-rect
  mapping attempt succeeded, `now` is a clock for timer delays).

Each method of the class becomes a function on `VCState`; the event wiring
of the constructor becomes the step relation `Step` further below.
-/

/-- A screen rectangle as returned by `coordsAtPos` / `getBoundingClientRect`. -/
structure Rect where
  left : Int
  right : Int
  top : Int
  bottom : Int
deriving DecidableEq, Repr

/-- Outcome of `view.coordsAtPos(head, -1)`: the host may throw, return
`null`, or return a rectangle. -/
inductive CoordsResult where
  | thrown
  | noRect
  | found (r : Rect)
deriving DecidableEq, Repr

/-- The host-view facts the controller reads: `view.hasFocus`,
`view.state.selection.main.empty`, `view.state.selection.main.head`,
the `coordsAtPos` outcome for the current head, and
`view.scrollDOM.getBoundingClientRect()`. -/
structure Env where
  hasFocus : Bool
  selectionEmpty : Bool
  head : Nat
  coords : CoordsResult
  hostRect : Rect
deriving DecidableEq, Repr

/-- `isCollapsedSelection(view)`: `view.state.selection.main.empty`. -/
def isCollapsedSelection (env : Env) : Bool :=
  env.selectionEmpty

/-- `UpdateOptions`: both fields optional (`forcePosition?`, `restartPhase?`). -/
structure UpdateOptions where
  forcePosition : Option Bool := none
  restartPhase : Option Bool := none
deriving DecidableEq, Repr

/-- JavaScript truthiness of an optional boolean field. -/
def truthy : Option Bool → Bool
  | some b => b
  | none => false

/-- `MeasurementOptions`: both intents required. -/
structure MeasurementOptions where
  forcePosition : Bool
  restartPhase : Bool
deriving DecidableEq, Repr

/-- `CursorMeasurement`: the immutable snapshot passed from the read phase
to the write phase. -/
structure CursorMeasurement where
  visible : Bool
  rect : Option Rect := none
  hostRect : Option Rect := none
  head : Nat
  options : MeasurementOptions
deriving DecidableEq, Repr

/-- `PHASE_DELAY = 200`. -/
def PHASE_DELAY : Nat := 200

/-- The controller state: instance fields of `VirtualCursorView`, the state
of its owned overlay element, the `window` timer world, and ghost
instrumentation fields (marked below). -/
structure VCState where
  /-- `this.cursor.style.display`: `true` is `"block"`, `false` is `"none"`. -/
  cursorDisplayBlock : Bool
  /-- whether `VIRTUAL_CURSOR_PHASE_CLASS` is in `this.cursor.classList`. -/
  cursorPhaseClass : Bool
  /-- `this.cursor.style.top` in pixels. -/
  cursorTop : Int
  /-- `this.cursor.style.left` in pixels. -/
  cursorLeft : Int
  /-- `this.cursor.style.height` in pixels; `none` until first set. -/
  cursorHeight : Option Int
  /-- whether the overlay element is attached to the document. -/
  cursorAttached : Bool
  /-- whether `VIRTUAL_CURSOR_ENABLED_CLASS` is on `view.dom`. -/
  enabledClass : Bool
  /-- whether the constructor's event listeners are registered. -/
  listenersAttached : Bool
  /-- whether the `ResizeObserver` is observing. -/
  observerConnected : Bool
  /-- `this.phaseTimer`: the id of the pending phase timeout, or `null`. -/
  phaseTimer : Option Nat
  /-- `this.lastHead`: the last applied head position, or `null`. -/
  lastHead : Option Nat
  /-- `this.scheduled`. -/
  scheduled : Bool
  /-- `this.pendingOptions`. -/
  pendingOptions : Option MeasurementOptions
  /-- ghost: number of `view.requestMeasure` calls made so far. -/
  measureRequests : Nat
  /-- the `window` timeouts this instance has pending: `(id, fireAt)`. -/
  timers : List (Nat × Nat)
  /-- next fresh timeout id handed out by `window.setTimeout`. -/
  nextTimerId : Nat
  /-- ghost: the current clock, advanced only by the environment. -/
  now : Nat
  /-- ghost: outcome of the most recent `coordsAtPos` attempt
  (`some true` succeeded, `some false` failed, `none` never attempted). -/
  lastMapOk : Option Bool
  /-- ghost: whether `destroy()` has run. -/
  destroyed : Bool
deriving DecidableEq, Repr

/-- `window.clearTimeout(id)`: removes a pending timeout; a no-op when the
id is not pending. -/
def clearTimeout (timers : List (Nat × Nat)) (id : Nat) : List (Nat × Nat) :=
  timers.filter (fun e => e.1 ≠ id)

/-- `hideCursor()`: sets `display` to `"none"`, removes the phase class, and
cancels the phase timeout when one is pending. -/
def hideCursor (s : VCState) : VCState :=
  let s := { s with cursorDisplayBlock := false, cursorPhaseClass := false }
  match s.phaseTimer with
  | some id => { s with timers := clearTimeout s.timers id, phaseTimer := none }
  | none => s

/-- `restartPhaseTimer()`: removes the phase class, cancels any pending
phase timeout, and schedules a fresh one that fires after `PHASE_DELAY`. -/
def restartPhaseTimer (s : VCState) : VCState :=
  let s := { s with cursorPhaseClass := false }
  let s :=
    match s.phaseTimer with
    | some id => { s with timers := clearTimeout s.timers id }
    | none => s
  { s with
    phaseTimer := some s.nextTimerId,
    timers := s.timers ++ [(s.nextTimerId, s.now + PHASE_DELAY)],
    nextTimerId := s.nextTimerId + 1 }

/-- The phase timeout's callback: adds the phase class and clears
`this.phaseTimer`; the fired timeout leaves the pending set. -/
def firePhaseTimer (s : VCState) : VCState :=
  match s.phaseTimer with
  | some id =>
    { s with cursorPhaseClass := true, phaseTimer := none,
             timers := clearTimeout s.timers id }
  | none => s

/-- `scheduleMeasurement(options)`: early-return hide when unfocused or the
selection is a range; otherwise OR-merge the intents into `pendingOptions`
and request a single batched measure when none is in flight. -/
def scheduleMeasurement (env : Env) (options : UpdateOptions) (s : VCState) :
    VCState :=
  if !env.hasFocus || !isCollapsedSelection env then
    let s := hideCursor s
    { s with lastHead := none }
  else
    let current := s.pendingOptions.getD ⟨false, false⟩
    let current :=
      if truthy options.forcePosition then
        { current with forcePosition := true }
      else current
    let current :=
      if truthy options.restartPhase then
        { current with restartPhase := true }
      else current
    let s := { s with pendingOptions := some current }
    if !s.scheduled then
      { s with scheduled := true, measureRequests := s.measureRequests + 1 }
    else s

/-- `readMeasurement(view)`: consumes `pendingOptions`, clears `scheduled`,
re-checks focus and collapsedness, and attempts the position-to-rectangle
mapping, catching any exception. Returns the snapshot and the new state. -/
def readMeasurement (env : Env) (s : VCState) :
    CursorMeasurement × VCState :=
  let options := s.pendingOptions.getD ⟨false, false⟩
  let s := { s with pendingOptions := none, scheduled := false }
  if !env.hasFocus || !isCollapsedSelection env then
    ({ visible := false, head := env.head, options := options }, s)
  else
    let head := env.head
    let rect : Option Rect :=
      match env.coords with
      | .thrown => none
      | .noRect => none
      | .found r => some r
    let s := { s with lastMapOk := some rect.isSome }
    match rect with
    | none => ({ visible := false, head := head, options := options }, s)
    | some r =>
      ({ visible := true, rect := some r, hostRect := some env.hostRect,
         head := head, options := options }, s)

/-- `applyMeasurement(data)`: the write phase. Hide and clear `lastHead`
when not visible; skip all DOM mutation when neither forced nor moved;
otherwise position the overlay and conditionally restart the phase timer. -/
def applyMeasurement (data : CursorMeasurement) (s : VCState) : VCState :=
  match data.visible, data.rect, data.hostRect with
  | true, some r, some h =>
    let headChanged := decide (s.lastHead ≠ some data.head)
    if !data.options.forcePosition && !headChanged then s
    else
      let top := r.top - h.top
      let left := r.left - h.left
      let height := r.bottom - r.top
      let s :=
        { s with
          lastHead := some data.head,
          cursorDisplayBlock := true,
          cursorHeight := some height,
          cursorTop := top,
          cursorLeft := left }
      if data.options.restartPhase || headChanged then
        restartPhaseTimer s
      else s
  | _, _, _ =>
    let s := hideCursor s
    { s with lastHead := none }

/-- `update(update)`: the per-transaction handler; requests a measurement
iff any of the five change flags is set. -/
structure ViewUpdateFlags where
  docChanged : Bool
  selectionSet : Bool
  viewportChanged : Bool
  geometryChanged : Bool
  focusChanged : Bool
deriving DecidableEq, Repr

def update (u : ViewUpdateFlags) (env : Env) (s : VCState) : VCState :=
  if u.docChanged || u.selectionSet || u.viewportChanged ||
      u.geometryChanged || u.focusChanged then
    scheduleMeasurement env
      { forcePosition :=
          some (u.viewportChanged || u.geometryChanged || u.focusChanged ||
            u.docChanged || u.selectionSet),
        restartPhase := some (u.docChanged || u.selectionSet) } s
  else s

/-- `destroy()`: run the cleanup callbacks, disconnect the observer, cancel
the phase timeout, drop pending intent, detach the overlay, unmark the dom. -/
def destroy (s : VCState) : VCState :=
  let s := { s with listenersAttached := false }
  let s := { s with observerConnected := false }
  let s :=
    match s.phaseTimer with
    | some id => { s with timers := clearTimeout s.timers id, phaseTimer := none }
    | none => s
  { s with
    pendingOptions := none,
    scheduled := false,
    cursorAttached := false,
    enabledClass := false,
    destroyed := true }

/-- The field values after the constructor body up to the final
`scheduleMeasurement` call: hidden overlay at `top/left = 0`, listeners
registered, nothing pending. -/
def initFields : VCState :=
  { cursorDisplayBlock := false
    cursorPhaseClass := false
    cursorTop := 0
    cursorLeft := 0
    cursorHeight := none
    cursorAttached := true
    enabledClass := true
    listenersAttached := true
    observerConnected := true
    phaseTimer := none
    lastHead := none
    scheduled := false
    pendingOptions := none
    measureRequests := 0
    timers := []
    nextTimerId := 0
    now := 0
    lastMapOk := none
    destroyed := false }

/-- The constructor: after setting up, it requests an initial forced,
phase-restarting measurement. -/
def construct (env : Env) : VCState :=
  scheduleMeasurement env
    { forcePosition := some true, restartPhase := some true } initFields

/-! ## Basic facts about the operations -/

theorem hideCursor_lastHead (s : VCState) : (hideCursor s).lastHead = s.lastHead := by
  unfold hideCursor
  cases s.phaseTimer <;> rfl

theorem destroy_lastHead (s : VCState) : (destroy s).lastHead = s.lastHead := by
  unfold destroy
  cases s.phaseTimer <;> rfl

theorem hideCursor_idem (s : VCState) : hideCursor (hideCursor s) = hideCursor s := by
  unfold hideCursor
  cases s.phaseTimer <;> rfl

theorem destroy_idem (s : VCState) : destroy (destroy s) = destroy s := by
  unfold destroy
  cases s.phaseTimer <;> rfl

/-- A sample caret rectangle for concrete witnesses. -/
def sampleRect : Rect := ⟨10, 12, 20, 35⟩

/-- A sample host (scroll container) rectangle for concrete witnesses. -/
def sampleHostRect : Rect := ⟨2, 300, 5, 400⟩

/-- A sample focused, collapsed-selection environment where the mapping
succeeds. -/
def sampleEnv : Env :=
  { hasFocus := true, selectionEmpty := true, head := 7,
    coords := .found sampleRect, hostRect := sampleHostRect }

theorem hideCursor_display (s : VCState) :
    (hideCursor s).cursorDisplayBlock = false ∧
    (hideCursor s).cursorPhaseClass = false ∧
    (hideCursor s).phaseTimer = none ∧
    (hideCursor s).cursorAttached = s.cursorAttached ∧
    (hideCursor s).lastMapOk = s.lastMapOk ∧
    (hideCursor s).destroyed = s.destroyed ∧
    (hideCursor s).scheduled = s.scheduled ∧
    (hideCursor s).measureRequests = s.measureRequests := by
  unfold hideCursor
  cases s.phaseTimer <;> simp

theorem restartPhaseTimer_frame (s : VCState) :
    (restartPhaseTimer s).lastHead = s.lastHead ∧
    (restartPhaseTimer s).cursorDisplayBlock = s.cursorDisplayBlock ∧
    (restartPhaseTimer s).cursorTop = s.cursorTop ∧
    (restartPhaseTimer s).cursorLeft = s.cursorLeft ∧
    (restartPhaseTimer s).cursorHeight = s.cursorHeight ∧
    (restartPhaseTimer s).cursorAttached = s.cursorAttached ∧
    (restartPhaseTimer s).lastMapOk = s.lastMapOk ∧
    (restartPhaseTimer s).destroyed = s.destroyed := by
  unfold restartPhaseTimer
  cases s.phaseTimer <;> simp

/-- Claim C9: hide and destroy are idempotent: from any controller state,
calling `hideCursor` twice equals calling it once, and likewise for
`destroy`. -/
theorem claim_C9 (s : VCState) :
    hideCursor (hideCursor s) = hideCursor s ∧
    destroy (destroy s) = destroy s :=
  ⟨hideCursor_idem s, destroy_idem s⟩

/-- Claim C10: `hideCursor` never modifies the remembered head (so the
blur-driven hide preserves it), and `lastHead` is cleared only by the
trigger-time early return and the write phase's not-visible branch: every
other operation (destroy, phase-timer restart and fire, a trigger that
passes the focus/collapsed check, the read phase) leaves it unchanged, and
a visible write either leaves it unchanged or sets it to the snapshot
head. -/
theorem claim_C10 :
    (∀ s : VCState, (hideCursor s).lastHead = s.lastHead) ∧
    (∀ s : VCState, (destroy s).lastHead = s.lastHead) ∧
    (∀ s : VCState, (restartPhaseTimer s).lastHead = s.lastHead) ∧
    (∀ s : VCState, (firePhaseTimer s).lastHead = s.lastHead) ∧
    (∀ (env : Env) (opts : UpdateOptions) (s : VCState),
      env.hasFocus = true → env.selectionEmpty = true →
      (scheduleMeasurement env opts s).lastHead = s.lastHead) ∧
    (∀ (env : Env) (s : VCState),
      ((readMeasurement env s).2).lastHead = s.lastHead) ∧
    (∀ (data : CursorMeasurement) (s : VCState),
      data.visible = true → data.rect.isSome = true → data.hostRect.isSome = true →
      (applyMeasurement data s).lastHead = s.lastHead ∨
      (applyMeasurement data s).lastHead = some data.head) := by
  refine ⟨hideCursor_lastHead, destroy_lastHead, ?_, ?_, ?_, ?_, ?_⟩
  · intro s
    exact (restartPhaseTimer_frame s).1
  · intro s
    unfold firePhaseTimer
    cases s.phaseTimer <;> rfl
  · intro env opts s hf hc
    unfold scheduleMeasurement
    simp [hf, hc, isCollapsedSelection]
    split <;> rfl
  · intro env s
    unfold readMeasurement
    split
    · rfl
    · cases env.coords <;> rfl
  · intro data s hv hr hh
    rw [Option.isSome_iff_exists] at hr hh
    obtain ⟨r, hr⟩ := hr
    obtain ⟨h, hh⟩ := hh
    unfold applyMeasurement
    rw [hv, hr, hh]
    simp only
    split
    · left; rfl
    · split
      · right
        exact (restartPhaseTimer_frame _).1
      · right; rfl

/-- Claim C10 witness: concrete instantiation of the hypothesis-bearing
conjuncts. -/
theorem claim_C10_witness :
    (scheduleMeasurement sampleEnv { forcePosition := some true } initFields).lastHead =
      initFields.lastHead ∧
    ((applyMeasurement
        { visible := true, rect := some sampleRect, hostRect := some sampleHostRect,
          head := 7, options := ⟨true, true⟩ } initFields).lastHead = initFields.lastHead ∨
      (applyMeasurement
        { visible := true, rect := some sampleRect, hostRect := some sampleHostRect,
          head := 7, options := ⟨true, true⟩ } initFields).lastHead = some 7) := by
  refine ⟨claim_C10.2.2.2.2.1 sampleEnv _ initFields (by decide) (by decide), ?_⟩
  exact claim_C10.2.2.2.2.2.2 _ initFields (by decide) (by decide) (by decide)

/-- Claim C3: a trigger fired while the selection is non-collapsed or the
surface lacks focus hides the overlay synchronously in the same call
(display none, dimmed class removed, any pending blink timer canceled),
clears the remembered head, and requests no batched read. -/
theorem claim_C3 (env : Env) (opts : UpdateOptions) (s : VCState)
    (h : env.hasFocus = false ∨ env.selectionEmpty = false) :
    (scheduleMeasurement env opts s).cursorDisplayBlock = false ∧
    (scheduleMeasurement env opts s).cursorPhaseClass = false ∧
    (scheduleMeasurement env opts s).phaseTimer = none ∧
    (scheduleMeasurement env opts s).lastHead = none ∧
    (scheduleMeasurement env opts s).measureRequests = s.measureRequests ∧
    (scheduleMeasurement env opts s).scheduled = s.scheduled ∧
    (∀ id t, s.phaseTimer = some id →
      (id, t) ∉ (scheduleMeasurement env opts s).timers) := by
  have hcond : (!env.hasFocus || !isCollapsedSelection env) = true := by
    rcases h with h | h <;> simp [isCollapsedSelection, h]
  unfold scheduleMeasurement
  rw [hcond]
  simp only [if_true]
  unfold hideCursor
  cases hp : s.phaseTimer <;>
    simp_all [clearTimeout, List.mem_filter]

/-- Claim C3 witness: a trigger on an unfocused surface leaves a hidden,
cleared state without scheduling. -/
theorem claim_C3_witness :
    (scheduleMeasurement ⟨false, true, 3, .noRect, sampleHostRect⟩
      { restartPhase := some true } initFields).cursorDisplayBlock = false ∧
    (scheduleMeasurement ⟨false, true, 3, .noRect, sampleHostRect⟩
      { restartPhase := some true } initFields).lastHead = none ∧
    (scheduleMeasurement ⟨false, true, 3, .noRect, sampleHostRect⟩
      { restartPhase := some true } initFields).measureRequests =
        initFields.measureRequests := by
  have h := claim_C3 ⟨false, true, 3, .noRect, sampleHostRect⟩
    { restartPhase := some true } initFields (Or.inl rfl)
  exact ⟨h.1, h.2.2.2.1, h.2.2.2.2.1⟩

/-- Claim C4: when the mapping fails (host throws or returns no rectangle)
during a read performed with focus and a collapsed selection, the read
returns a not-visible snapshot (the failure is swallowed), and applying
that snapshot hides the overlay and clears the remembered head from any
prior state. -/
theorem claim_C4 (env : Env) (s s2 : VCState)
    (hf : env.hasFocus = true) (hc : env.selectionEmpty = true)
    (hfail : env.coords = CoordsResult.thrown ∨ env.coords = CoordsResult.noRect) :
    (readMeasurement env s).1.visible = false ∧
    (readMeasurement env s).1.rect = none ∧
    (readMeasurement env s).1.head = env.head ∧
    ((readMeasurement env s).2).lastMapOk = some false ∧
    (applyMeasurement (readMeasurement env s).1 s2).cursorDisplayBlock = false ∧
    (applyMeasurement (readMeasurement env s).1 s2).lastHead = none ∧
    (applyMeasurement (readMeasurement env s).1 s2).cursorPhaseClass = false ∧
    (applyMeasurement (readMeasurement env s).1 s2).phaseTimer = none := by
  have hread : (readMeasurement env s).1 =
      { visible := false, head := env.head,
        options := s.pendingOptions.getD ⟨false, false⟩ } ∧
      ((readMeasurement env s).2).lastMapOk = some false := by
    unfold readMeasurement
    rcases hfail with h | h <;> simp [hf, hc, isCollapsedSelection, h]
  refine ⟨by rw [hread.1], by rw [hread.1], by rw [hread.1], hread.2, ?_⟩
  rw [hread.1]
  have hh := hideCursor_display s2
  exact ⟨hh.1, rfl, hh.2.1, hh.2.2.1⟩

/-- Claim C4 witness: a throwing mapping yields a hidden overlay and a
cleared head. -/
theorem claim_C4_witness :
    (readMeasurement ⟨true, true, 4, .thrown, sampleHostRect⟩ initFields).1.visible =
      false ∧
    (applyMeasurement
      (readMeasurement ⟨true, true, 4, .thrown, sampleHostRect⟩ initFields).1
      initFields).lastHead = none := by
  have h := claim_C4 ⟨true, true, 4, .thrown, sampleHostRect⟩ initFields initFields
    rfl rfl (Or.inl rfl)
  exact ⟨h.1, h.2.2.2.2.2.1⟩

/-- Claim C6: the per-transaction handler requests a measurement exactly
when one of the five flags is set, with `forcePosition` true iff
viewport, geometry or focus changed or document or selection changed, and
`restartPhase` true iff document or selection changed; a descriptor with
no flag set requests nothing. -/
theorem claim_C6 (u : ViewUpdateFlags) (env : Env) (s : VCState) :
    ((u.docChanged || u.selectionSet || u.viewportChanged ||
        u.geometryChanged || u.focusChanged) = true →
      update u env s =
        scheduleMeasurement env
          { forcePosition :=
              some (u.viewportChanged || u.geometryChanged || u.focusChanged ||
                u.docChanged || u.selectionSet),
            restartPhase := some (u.docChanged || u.selectionSet) } s) ∧
    ((u.docChanged || u.selectionSet || u.viewportChanged ||
        u.geometryChanged || u.focusChanged) = false →
      update u env s = s) := by
  constructor <;> intro h <;> simp [update, h]

/-- Claim C6 witness: a document-change descriptor requests a forced,
phase-restarting measurement; the all-false descriptor changes nothing. -/
theorem claim_C6_witness :
    update ⟨true, false, false, false, false⟩ sampleEnv initFields =
      scheduleMeasurement sampleEnv
        { forcePosition := some true, restartPhase := some true } initFields ∧
    update ⟨false, false, false, false, false⟩ sampleEnv initFields = initFields := by
  constructor
  · exact (claim_C6 ⟨true, false, false, false, false⟩ sampleEnv initFields).1 (by decide)
  · exact (claim_C6 ⟨false, false, false, false, false⟩ sampleEnv initFields).2 (by decide)

/-- Claim C7: a visible snapshot with `forcePosition` false and a head
equal to the last applied head produces no mutation at all: the write
phase returns the state unchanged. -/
theorem claim_C7 (data : CursorMeasurement) (r h : Rect) (s : VCState)
    (hv : data.visible = true) (hr : data.rect = some r)
    (hh : data.hostRect = some h)
    (hf : data.options.forcePosition = false)
    (hd : s.lastHead = some data.head) :
    applyMeasurement data s = s := by
  unfold applyMeasurement
  rw [hv, hr, hh]
  simp [hf, hd]

/-- Claim C7 witness: an unforced, position-unchanged visible write leaves
the state untouched. -/
theorem claim_C7_witness :
    applyMeasurement
      { visible := true, rect := some sampleRect, hostRect := some sampleHostRect,
        head := 7, options := ⟨false, false⟩ }
      { initFields with lastHead := some 7 } =
      { initFields with lastHead := some 7 } :=
  claim_C7 _ sampleRect sampleHostRect _ rfl rfl rfl rfl rfl

/-- Claim C8: a visible write that does mutate updates the remembered head
to the snapshot head and applies exactly top = caret top − container top,
left = caret left − container left, height = caret bottom − caret top,
with the overlay displayed. -/
theorem claim_C8 (data : CursorMeasurement) (r h : Rect) (s : VCState)
    (hv : data.visible = true) (hr : data.rect = some r)
    (hh : data.hostRect = some h)
    (hm : data.options.forcePosition = true ∨ s.lastHead ≠ some data.head) :
    (applyMeasurement data s).lastHead = some data.head ∧
    (applyMeasurement data s).cursorDisplayBlock = true ∧
    (applyMeasurement data s).cursorTop = r.top - h.top ∧
    (applyMeasurement data s).cursorLeft = r.left - h.left ∧
    (applyMeasurement data s).cursorHeight = some (r.bottom - r.top) := by
  unfold applyMeasurement
  rw [hv, hr, hh]
  simp only
  have hcond : (!data.options.forcePosition &&
      !decide (s.lastHead ≠ some data.head)) = false := by
    rcases hm with hm | hm <;> simp [hm]
  rw [hcond]
  simp only [Bool.false_eq_true, if_false]
  split
  · exact ⟨(restartPhaseTimer_frame _).1, (restartPhaseTimer_frame _).2.1,
      (restartPhaseTimer_frame _).2.2.1, (restartPhaseTimer_frame _).2.2.2.1,
      (restartPhaseTimer_frame _).2.2.2.2.1⟩
  · exact ⟨rfl, rfl, rfl, rfl, rfl⟩

/-- Claim C8 witness: a forced visible write at head 7 applies the
subtracted coordinates. -/
theorem claim_C8_witness :
    (applyMeasurement
      { visible := true, rect := some sampleRect, hostRect := some sampleHostRect,
        head := 7, options := ⟨true, false⟩ } initFields).lastHead = some 7 ∧
    (applyMeasurement
      { visible := true, rect := some sampleRect, hostRect := some sampleHostRect,
        head := 7, options := ⟨true, false⟩ } initFields).cursorTop = 15 := by
  have h := claim_C8
    { visible := true, rect := some sampleRect, hostRect := some sampleHostRect,
      head := 7, options := ⟨true, false⟩ }
    sampleRect sampleHostRect initFields rfl rfl rfl (Or.inl rfl)
  exact ⟨h.1, h.2.2.1⟩

/-- Timer-world well-formedness: `phaseTimer` tracks the unique pending
timeout (so at most one is pending), and pending ids are below the fresh
counter. -/
def timerWF (s : VCState) : Bool :=
  match s.phaseTimer, s.timers with
  | some id, [(i, _)] => id == i && decide (id < s.nextTimerId)
  | none, [] => true
  | _, _ => false

theorem restartPhaseTimer_WF (s : VCState) (hWF : timerWF s = true) :
    (restartPhaseTimer s).cursorPhaseClass = false ∧
    (restartPhaseTimer s).phaseTimer = some s.nextTimerId ∧
    (restartPhaseTimer s).timers = [(s.nextTimerId, s.now + PHASE_DELAY)] ∧
    timerWF (restartPhaseTimer s) = true := by
  unfold timerWF at hWF
  unfold restartPhaseTimer
  cases hp : s.phaseTimer with
  | none =>
    rw [hp] at hWF
    cases ht : s.timers with
    | nil =>
      simp [hp, ht, timerWF]
    | cons e rest =>
      rw [ht] at hWF
      simp at hWF
  | some id =>
    rw [hp] at hWF
    cases ht : s.timers with
    | nil => rw [ht] at hWF; simp at hWF
    | cons e rest =>
      cases rest with
      | cons e2 rest2 => rw [ht] at hWF; simp at hWF
      | nil =>
        rw [ht] at hWF
        obtain ⟨i, t⟩ := e
        simp only [beq_iff_eq, Bool.and_eq_true, decide_eq_true_eq] at hWF
        obtain ⟨hi, hlt⟩ := hWF
        subst hi
        have hclear : clearTimeout [(id, t)] id = [] := by
          simp [clearTimeout]
        simp [hp, ht, timerWF, hclear]

/-- Claim C5: in a visible, mutating write the blink-phase timer is
restarted exactly when the restart-phase intent was consumed or the head
changed: the dimmed class is removed, the previous pending timeout is
canceled before rescheduling (so exactly one timeout is pending, with
fire time `now + 200`); a position-unchanged forced write without
restart-phase leaves the dimmed class, the timer handle, and the pending
timeouts untouched. -/
theorem claim_C5 (data : CursorMeasurement) (r h : Rect) (s : VCState)
    (hWF : timerWF s = true) (hv : data.visible = true)
    (hr : data.rect = some r) (hh : data.hostRect = some h) :
    ((data.options.forcePosition = true ∨ s.lastHead ≠ some data.head) →
      (data.options.restartPhase = true ∨ s.lastHead ≠ some data.head) →
      (applyMeasurement data s).cursorPhaseClass = false ∧
      (applyMeasurement data s).phaseTimer = some s.nextTimerId ∧
      (applyMeasurement data s).timers = [(s.nextTimerId, s.now + 200)] ∧
      timerWF (applyMeasurement data s) = true) ∧
    ((data.options.forcePosition = true ∧ data.options.restartPhase = false ∧
        s.lastHead = some data.head) →
      (applyMeasurement data s).cursorPhaseClass = s.cursorPhaseClass ∧
      (applyMeasurement data s).phaseTimer = s.phaseTimer ∧
      (applyMeasurement data s).timers = s.timers) := by
  constructor
  · intro hm hrs
    have hcond : (!data.options.forcePosition &&
        !decide (s.lastHead ≠ some data.head)) = false := by
      rcases hm with hm | hm <;> simp [hm]
    have hcond2 : (data.options.restartPhase ||
        decide (s.lastHead ≠ some data.head)) = true := by
      rcases hrs with hrs | hrs <;> simp [hrs]
    unfold applyMeasurement
    rw [hv, hr, hh]
    simp only [hcond, Bool.false_eq_true, if_false, hcond2, if_true]
    exact restartPhaseTimer_WF _ hWF
  · intro ⟨hforce, hrs, hd⟩
    unfold applyMeasurement
    rw [hv, hr, hh]
    simp only [hforce, hd, hrs]
    simp

/-- Claim C5 witness: a first visible write (head changed) schedules the
single 200-unit timeout; a forced position-unchanged write without
restart leaves the timer state untouched. -/
theorem claim_C5_witness :
    ((applyMeasurement
        { visible := true, rect := some sampleRect, hostRect := some sampleHostRect,
          head := 7, options := ⟨true, true⟩ } initFields).timers =
      [(initFields.nextTimerId, initFields.now + 200)]) ∧
    ((applyMeasurement
        { visible := true, rect := some sampleRect, hostRect := some sampleHostRect,
          head := 7, options := ⟨true, false⟩ }
        { initFields with lastHead := some 7 }).timers =
      { initFields with lastHead := some 7 }.timers) := by
  constructor
  · exact (((claim_C5
      { visible := true, rect := some sampleRect, hostRect := some sampleHostRect,
        head := 7, options := ⟨true, true⟩ }
      sampleRect sampleHostRect initFields (by decide) rfl rfl rfl).1
      (Or.inl rfl) (Or.inl rfl)).2.2.1)
  · exact ((claim_C5
      { visible := true, rect := some sampleRect, hostRect := some sampleHostRect,
        head := 7, options := ⟨true, false⟩ }
      sampleRect sampleHostRect { initFields with lastHead := some 7 }
      (by decide) rfl rfl rfl).2 ⟨rfl, rfl, rfl⟩).2.2

/-- OR-merge of one trigger's optional intents into the accumulator, as
performed inside `scheduleMeasurement`. -/
def mergeOpt (c : MeasurementOptions) (o : UpdateOptions) : MeasurementOptions :=
  ⟨c.forcePosition || truthy o.forcePosition, c.restartPhase || truthy o.restartPhase⟩

/-- Component-wise logical OR of a list of trigger intents. -/
def orIntents (l : List UpdateOptions) : MeasurementOptions :=
  l.foldl mergeOpt ⟨false, false⟩

/-- A sequence of trigger calls, each with the environment it observed. -/
def runTriggers (l : List (Env × UpdateOptions)) (s : VCState) : VCState :=
  l.foldl (fun s p => scheduleMeasurement p.1 p.2 s) s

theorem scheduleMeasurement_focused (e : Env) (o : UpdateOptions) (s : VCState)
    (hf : e.hasFocus = true) (hc : e.selectionEmpty = true) :
    scheduleMeasurement e o s =
      if s.scheduled then
        { s with
          pendingOptions := some (mergeOpt (s.pendingOptions.getD ⟨false, false⟩) o) }
      else
        { s with
          pendingOptions := some (mergeOpt (s.pendingOptions.getD ⟨false, false⟩) o),
          scheduled := true, measureRequests := s.measureRequests + 1 } := by
  unfold scheduleMeasurement mergeOpt
  simp only [hf, hc, isCollapsedSelection, Bool.not_true, Bool.or_self,
    Bool.false_eq_true, if_false]
  cases hfp : truthy o.forcePosition <;> cases hrp : truthy o.restartPhase <;>
    cases hs : s.scheduled <;>
    simp [hfp, hrp, hs]

theorem runTriggers_scheduled (l : List (Env × UpdateOptions)) :
    ∀ (s : VCState) (c : MeasurementOptions),
    s.scheduled = true → s.pendingOptions = some c →
    (∀ p ∈ l, p.1.hasFocus = true ∧ p.1.selectionEmpty = true) →
    (runTriggers l s).scheduled = true ∧
    (runTriggers l s).measureRequests = s.measureRequests ∧
    (runTriggers l s).pendingOptions =
      some (l.foldl (fun acc p => mergeOpt acc p.2) c) := by
  induction l with
  | nil =>
    intro s c hs hp _
    exact ⟨hs, rfl, by simpa [runTriggers] using hp⟩
  | cons head tail ih =>
    intro s c hs hp hfoc
    obtain ⟨e, o⟩ := head
    have he := hfoc (e, o) (List.mem_cons_self _ _)
    have hstep := scheduleMeasurement_focused e o s he.1 he.2
    rw [hs, if_pos rfl] at hstep
    have hs2 : (scheduleMeasurement e o s).scheduled = true := by
      rw [hstep]
    have hp2 : (scheduleMeasurement e o s).pendingOptions =
        some (mergeOpt c o) := by
      rw [hstep]
      simp [hp]
    have hm2 : (scheduleMeasurement e o s).measureRequests =
        s.measureRequests := by
      rw [hstep]
    have hrest := ih (scheduleMeasurement e o s) (mergeOpt c o) hs2 hp2
      (fun p hpmem => hfoc p (List.mem_cons_of_mem _ hpmem))
    have hrun : runTriggers ((e, o) :: tail) s =
        runTriggers tail (scheduleMeasurement e o s) := rfl
    rw [hrun]
    exact ⟨hrest.1, by rw [hrest.2.1, hm2],
      by rw [hrest.2.2, List.foldl_cons]⟩

theorem readMeasurement_consumes (env : Env) (s : VCState) :
    (readMeasurement env s).1.options = s.pendingOptions.getD ⟨false, false⟩ ∧
    ((readMeasurement env s).2).pendingOptions = none ∧
    ((readMeasurement env s).2).scheduled = false := by
  unfold readMeasurement
  split
  · exact ⟨rfl, rfl, rfl⟩
  · cases env.coords <;> exact ⟨rfl, rfl, rfl⟩

/-- Claim C1: any nonempty sequence of triggers arriving strictly between
two read-flush cycles (each with focus held and a collapsed selection)
requests exactly one batched measure, and the read then consumes the
component-wise OR of all the triggers' intents, leaving a clean
accumulator and scheduled flag for the next cycle. -/
theorem claim_C1 (l : List (Env × UpdateOptions)) (s : VCState)
    (hsched : s.scheduled = false) (hpend : s.pendingOptions = none)
    (hne : l ≠ [])
    (hfoc : ∀ p ∈ l, p.1.hasFocus = true ∧ p.1.selectionEmpty = true) :
    (runTriggers l s).measureRequests = s.measureRequests + 1 ∧
    (runTriggers l s).scheduled = true ∧
    (runTriggers l s).pendingOptions = some (orIntents (l.map Prod.snd)) ∧
    (∀ env2 : Env,
      (readMeasurement env2 (runTriggers l s)).1.options =
        orIntents (l.map Prod.snd) ∧
      ((readMeasurement env2 (runTriggers l s)).2).pendingOptions = none ∧
      ((readMeasurement env2 (runTriggers l s)).2).scheduled = false) := by
  cases l with
  | nil => exact absurd rfl hne
  | cons head tail =>
    obtain ⟨e, o⟩ := head
    have he := hfoc (e, o) (List.mem_cons_self _ _)
    have hstep := scheduleMeasurement_focused e o s he.1 he.2
    rw [hsched, if_neg Bool.false_ne_true] at hstep
    have hs2 : (scheduleMeasurement e o s).scheduled = true := by
      rw [hstep]
    have hp2 : (scheduleMeasurement e o s).pendingOptions =
        some (mergeOpt ⟨false, false⟩ o) := by
      rw [hstep]
      simp [hpend]
    have hm2 : (scheduleMeasurement e o s).measureRequests =
        s.measureRequests + 1 := by
      rw [hstep]
    have hrun : runTriggers ((e, o) :: tail) s =
        runTriggers tail (scheduleMeasurement e o s) := rfl
    have hrest := runTriggers_scheduled tail (scheduleMeasurement e o s)
      (mergeOpt ⟨false, false⟩ o) hs2 hp2
      (fun p hpmem => hfoc p (List.mem_cons_of_mem _ hpmem))
    have hmr : (runTriggers ((e, o) :: tail) s).measureRequests =
        s.measureRequests + 1 := by
      rw [hrun, hrest.2.1, hm2]
    have hfold : (orIntents (((e, o) :: tail).map Prod.snd)) =
        tail.foldl (fun acc p => mergeOpt acc p.2) (mergeOpt ⟨false, false⟩ o) := by
      unfold orIntents
      rw [List.map_cons, List.foldl_cons, List.foldl_map]
    have hpo : (runTriggers ((e, o) :: tail) s).pendingOptions =
        some (orIntents (((e, o) :: tail).map Prod.snd)) := by
      rw [hrun, hrest.2.2, hfold]
    refine ⟨hmr, by rw [hrun]; exact hrest.1, hpo, ?_⟩
    intro env2
    have hcons := readMeasurement_consumes env2 (runTriggers ((e, o) :: tail) s)
    refine ⟨?_, hcons.2.1, hcons.2.2⟩
    rw [hcons.1, hpo]
    rfl

/-- Claim C1 witness: two triggers (one forcing position, one restarting
phase) coalesce into one request whose consumed intents are both true. -/
theorem claim_C1_witness :
    (runTriggers [(sampleEnv, { forcePosition := some true }),
        (sampleEnv, { restartPhase := some true })] initFields).measureRequests =
      initFields.measureRequests + 1 ∧
    (readMeasurement sampleEnv
      (runTriggers [(sampleEnv, { forcePosition := some true }),
        (sampleEnv, { restartPhase := some true })] initFields)).1.options =
      orIntents ([(sampleEnv, ({ forcePosition := some true } : UpdateOptions)),
        (sampleEnv, { restartPhase := some true })].map Prod.snd) := by
  have h := claim_C1 [(sampleEnv, { forcePosition := some true }),
      (sampleEnv, { restartPhase := some true })] initFields rfl rfl
    (by decide) (by decide)
  exact ⟨h.1, (h.2.2.2 sampleEnv).1⟩

/-- Whether the overlay is actually visible: displayed and attached. -/
def overlayVisible (s : VCState) : Bool :=
  s.cursorDisplayBlock && s.cursorAttached

/-- A world: the controller state together with the current host-view
facts. -/
structure World where
  ctrl : VCState
  env : Env
deriving DecidableEq, Repr

/-- One event of the event-driven system, with the DOM-faithful coupling
between environment changes and the listeners the constructor wired up:
focus changes deliver blur/focus, CodeMirror transactions deliver `update`
with flags consistent with the state change, scroll/resize deliver
forced triggers, the deferred selectionchange callback delivers a
restart-phase trigger, the measure flush runs read then write, and the
phase timeout can fire once its time has come. After `destroy` no
callback fires. -/
inductive Step : World → World → Prop where
  | cmUpdate (w : World) (u : ViewUpdateFlags) (env2 : Env)
      (hd : w.ctrl.destroyed = false)
      (hfc : env2.hasFocus ≠ w.env.hasFocus → u.focusChanged = true)
      (hsc : env2.selectionEmpty ≠ w.env.selectionEmpty ∨ env2.head ≠ w.env.head →
        u.selectionSet = true ∨ u.docChanged = true) :
      Step w ⟨update u env2 w.ctrl, env2⟩
  | rafSelectionChange (w : World) (hd : w.ctrl.destroyed = false) :
      Step w ⟨scheduleMeasurement w.env { restartPhase := some true } w.ctrl, w.env⟩
  | layoutTrigger (w : World) (env2 : Env) (hd : w.ctrl.destroyed = false)
      (hf : env2.hasFocus = w.env.hasFocus)
      (hs : env2.selectionEmpty = w.env.selectionEmpty)
      (hh : env2.head = w.env.head) :
      Step w ⟨scheduleMeasurement env2 { forcePosition := some true } w.ctrl, env2⟩
  | blurEvent (w : World) (hd : w.ctrl.destroyed = false) :
      Step w ⟨hideCursor w.ctrl, { w.env with hasFocus := false }⟩
  | focusEvent (w : World) (hd : w.ctrl.destroyed = false) :
      Step w ⟨scheduleMeasurement { w.env with hasFocus := true }
        { forcePosition := some true, restartPhase := some true } w.ctrl,
        { w.env with hasFocus := true }⟩
  | layoutShift (w : World) (env2 : Env) (hd : w.ctrl.destroyed = false)
      (hf : env2.hasFocus = w.env.hasFocus)
      (hs : env2.selectionEmpty = w.env.selectionEmpty)
      (hh : env2.head = w.env.head) :
      Step w ⟨w.ctrl, env2⟩
  | flush (w : World) (hd : w.ctrl.destroyed = false)
      (hs : w.ctrl.scheduled = true) :
      Step w ⟨applyMeasurement (readMeasurement w.env w.ctrl).1
        (readMeasurement w.env w.ctrl).2, w.env⟩
  | timerFire (w : World) (id t : Nat) (hd : w.ctrl.destroyed = false)
      (hp : w.ctrl.phaseTimer = some id)
      (hmem : (id, t) ∈ w.ctrl.timers) (htime : t ≤ w.ctrl.now) :
      Step w ⟨firePhaseTimer w.ctrl, w.env⟩
  | tick (w : World) (d : Nat) (hd : w.ctrl.destroyed = false) :
      Step w ⟨{ w.ctrl with now := w.ctrl.now + d }, w.env⟩
  | destroyEvent (w : World) (hd : w.ctrl.destroyed = false) :
      Step w ⟨destroy w.ctrl, w.env⟩

/-- The world right after construction. -/
def initWorld (env : Env) : World := ⟨construct env, env⟩

/-- A world the controller can actually be in. -/
def Reachable (w : World) : Prop :=
  ∃ env0, Relation.ReflTransGen Step (initWorld env0) w

/-- The controller-side invariant: the overlay stays attached until
destruction, a visible overlay means the last mapping attempt succeeded,
and a hidden overlay means the blink timeout is canceled. -/
def CtrlInv (s : VCState) : Prop :=
  (s.destroyed = false → s.cursorAttached = true) ∧
  (overlayVisible s = true → s.lastMapOk = some true) ∧
  (overlayVisible s = false → s.phaseTimer = none)

/-- The full invariant: additionally, a visible overlay means the host
currently has focus and a collapsed selection. -/
def C2Inv (w : World) : Prop :=
  CtrlInv w.ctrl ∧
  (overlayVisible w.ctrl = true →
    w.env.hasFocus = true ∧ w.env.selectionEmpty = true)

theorem scheduleMeasurement_keep (env : Env) (o : UpdateOptions) (s : VCState)
    (hf : env.hasFocus = true) (hc : env.selectionEmpty = true) :
    (scheduleMeasurement env o s).cursorDisplayBlock = s.cursorDisplayBlock ∧
    (scheduleMeasurement env o s).cursorPhaseClass = s.cursorPhaseClass ∧
    (scheduleMeasurement env o s).phaseTimer = s.phaseTimer ∧
    (scheduleMeasurement env o s).timers = s.timers ∧
    (scheduleMeasurement env o s).cursorAttached = s.cursorAttached ∧
    (scheduleMeasurement env o s).lastMapOk = s.lastMapOk ∧
    (scheduleMeasurement env o s).destroyed = s.destroyed := by
  rw [scheduleMeasurement_focused env o s hf hc]
  split <;> exact ⟨rfl, rfl, rfl, rfl, rfl, rfl, rfl⟩

theorem scheduleMeasurement_hide (env : Env) (o : UpdateOptions) (s : VCState)
    (h : env.hasFocus = false ∨ env.selectionEmpty = false) :
    (scheduleMeasurement env o s).cursorDisplayBlock = false ∧
    (scheduleMeasurement env o s).cursorPhaseClass = false ∧
    (scheduleMeasurement env o s).phaseTimer = none ∧
    (scheduleMeasurement env o s).cursorAttached = s.cursorAttached ∧
    (scheduleMeasurement env o s).lastMapOk = s.lastMapOk ∧
    (scheduleMeasurement env o s).destroyed = s.destroyed := by
  have heq : scheduleMeasurement env o s = { hideCursor s with lastHead := none } := by
    unfold scheduleMeasurement
    rcases h with h | h <;> simp [isCollapsedSelection, h]
  rw [heq]
  have hh := hideCursor_display s
  exact ⟨hh.1, hh.2.1, hh.2.2.1, hh.2.2.2.1, hh.2.2.2.2.1, hh.2.2.2.2.2.1⟩

theorem firePhaseTimer_fields (s : VCState) :
    (firePhaseTimer s).cursorDisplayBlock = s.cursorDisplayBlock ∧
    (firePhaseTimer s).cursorAttached = s.cursorAttached ∧
    (firePhaseTimer s).lastMapOk = s.lastMapOk ∧
    (firePhaseTimer s).destroyed = s.destroyed ∧
    (firePhaseTimer s).phaseTimer = none ∨
      (firePhaseTimer s) = s ∧ s.phaseTimer = none := by
  unfold firePhaseTimer
  cases hp : s.phaseTimer with
  | some id => exact Or.inl ⟨rfl, rfl, rfl, rfl, rfl⟩
  | none => exact Or.inr ⟨rfl, rfl⟩

theorem destroy_fields (s : VCState) :
    (destroy s).destroyed = true ∧
    (destroy s).cursorAttached = false ∧
    (destroy s).phaseTimer = none := by
  unfold destroy
  cases s.phaseTimer <;> exact ⟨rfl, rfl, rfl⟩

theorem bool_not_both (a b : Bool) (h : ¬(a = true ∧ b = true)) :
    a = false ∨ b = false := by
  cases a with
  | false => exact Or.inl rfl
  | true =>
    cases b with
    | false => exact Or.inr rfl
    | true => exact absurd ⟨rfl, rfl⟩ h

theorem CtrlInv_schedule (env : Env) (o : UpdateOptions) (s : VCState)
    (h : CtrlInv s) : CtrlInv (scheduleMeasurement env o s) := by
  by_cases hfe : env.hasFocus = true ∧ env.selectionEmpty = true
  · have hk := scheduleMeasurement_keep env o s hfe.1 hfe.2
    have hv : overlayVisible (scheduleMeasurement env o s) = overlayVisible s := by
      unfold overlayVisible
      rw [hk.1, hk.2.2.2.2.1]
    refine ⟨?_, ?_, ?_⟩
    · intro hd
      rw [hk.2.2.2.2.1]
      refine h.1 ?_
      rw [← hk.2.2.2.2.2.2]
      exact hd
    · intro hvis
      rw [hv] at hvis
      rw [hk.2.2.2.2.2.1]
      exact h.2.1 hvis
    · intro hvis
      rw [hv] at hvis
      rw [hk.2.2.1]
      exact h.2.2 hvis
  · have hk := scheduleMeasurement_hide env o s (bool_not_both _ _ hfe)
    refine ⟨?_, ?_, ?_⟩
    · intro hd
      rw [hk.2.2.2.1]
      refine h.1 ?_
      rw [← hk.2.2.2.2.2]
      exact hd
    · intro hvis
      unfold overlayVisible at hvis
      rw [hk.1] at hvis
      simp at hvis
    · intro _
      exact hk.2.2.1

theorem schedule_visible_env (env : Env) (o : UpdateOptions) (s : VCState)
    (hvis : overlayVisible (scheduleMeasurement env o s) = true) :
    env.hasFocus = true ∧ env.selectionEmpty = true := by
  by_cases hfe : env.hasFocus = true ∧ env.selectionEmpty = true
  · exact hfe
  · exfalso
    have hk := scheduleMeasurement_hide env o s (bool_not_both _ _ hfe)
    unfold overlayVisible at hvis
    rw [hk.1] at hvis
    simp at hvis

theorem schedule_visible_mono (env : Env) (o : UpdateOptions) (s : VCState)
    (hvis : overlayVisible (scheduleMeasurement env o s) = true) :
    overlayVisible s = true := by
  have hfe := schedule_visible_env env o s hvis
  have hk := scheduleMeasurement_keep env o s hfe.1 hfe.2
  unfold overlayVisible at hvis ⊢
  rw [hk.1, hk.2.2.2.2.1] at hvis
  exact hvis

theorem CtrlInv_hideCursor (s : VCState) (h : CtrlInv s) :
    CtrlInv (hideCursor s) := by
  have hh := hideCursor_display s
  refine ⟨?_, ?_, ?_⟩
  · intro hd
    rw [hh.2.2.2.1]
    refine h.1 ?_
    rw [← hh.2.2.2.2.2.1]
    exact hd
  · intro hvis
    unfold overlayVisible at hvis
    rw [hh.1] at hvis
    simp at hvis
  · intro _
    exact hh.2.2.1

theorem CtrlInv_fire (s : VCState) (h : CtrlInv s) :
    CtrlInv (firePhaseTimer s) := by
  rcases firePhaseTimer_fields s with hf | hf
  · have hv : overlayVisible (firePhaseTimer s) = overlayVisible s := by
      unfold overlayVisible
      rw [hf.1, hf.2.1]
    refine ⟨?_, ?_, ?_⟩
    · intro hd
      rw [hf.2.1]
      refine h.1 ?_
      rw [← hf.2.2.2.1]
      exact hd
    · intro hvis
      rw [hv] at hvis
      rw [hf.2.2.1]
      exact h.2.1 hvis
    · intro _
      exact hf.2.2.2.2
  · rw [hf.1]
    exact h

theorem CtrlInv_destroy (s : VCState) : CtrlInv (destroy s) := by
  have hd := destroy_fields s
  refine ⟨?_, ?_, ?_⟩
  · intro hfalse
    rw [hd.1] at hfalse
    exact absurd hfalse (by simp)
  · intro hvis
    unfold overlayVisible at hvis
    rw [hd.2.1] at hvis
    simp at hvis
  · intro _
    exact hd.2.2

theorem CtrlInv_tick (s : VCState) (d : Nat) (h : CtrlInv s) :
    CtrlInv { s with now := s.now + d } :=
  ⟨h.1, h.2.1, h.2.2⟩

theorem not_visible_of_display (s2 : VCState)
    (hdisp : s2.cursorDisplayBlock = false) : overlayVisible s2 = false := by
  unfold overlayVisible
  rw [hdisp]
  simp

theorem not_visible_of_detached (s2 : VCState)
    (hatt : s2.cursorAttached = false) : overlayVisible s2 = false := by
  unfold overlayVisible
  rw [hatt]
  simp

theorem CtrlInv_of_fields (s2 : VCState) (hdisp : s2.cursorDisplayBlock = false)
    (hpt : s2.phaseTimer = none)
    (hattach : s2.destroyed = false → s2.cursorAttached = true) :
    CtrlInv s2 := by
  refine ⟨hattach, ?_, fun _ => hpt⟩
  intro hvis
  rw [not_visible_of_display s2 hdisp] at hvis
  exact absurd hvis (by simp)

theorem applyMeasurement_invisible (data : CursorMeasurement) (s1 : VCState)
    (h : data.visible = false) :
    applyMeasurement data s1 = { hideCursor s1 with lastHead := none } := by
  unfold applyMeasurement
  rw [h]

theorem applyMeasurement_invisible_fields (data : CursorMeasurement)
    (s1 : VCState) (h : data.visible = false) :
    (applyMeasurement data s1).cursorDisplayBlock = false ∧
    (applyMeasurement data s1).cursorPhaseClass = false ∧
    (applyMeasurement data s1).phaseTimer = none ∧
    (applyMeasurement data s1).lastHead = none ∧
    (applyMeasurement data s1).cursorAttached = s1.cursorAttached ∧
    (applyMeasurement data s1).destroyed = s1.destroyed := by
  rw [applyMeasurement_invisible data s1 h]
  have hh := hideCursor_display s1
  exact ⟨hh.1, hh.2.1, hh.2.2.1, rfl, hh.2.2.2.1, hh.2.2.2.2.2.1⟩

theorem read_frame (env : Env) (s : VCState) :
    ((readMeasurement env s).2).cursorDisplayBlock = s.cursorDisplayBlock ∧
    ((readMeasurement env s).2).cursorPhaseClass = s.cursorPhaseClass ∧
    ((readMeasurement env s).2).cursorAttached = s.cursorAttached ∧
    ((readMeasurement env s).2).phaseTimer = s.phaseTimer ∧
    ((readMeasurement env s).2).timers = s.timers ∧
    ((readMeasurement env s).2).destroyed = s.destroyed := by
  unfold readMeasurement
  split
  · exact ⟨rfl, rfl, rfl, rfl, rfl, rfl⟩
  · cases env.coords <;> exact ⟨rfl, rfl, rfl, rfl, rfl, rfl⟩

theorem read_cases (env : Env) (s : VCState) :
    ((readMeasurement env s).1.visible = false) ∨
    ((readMeasurement env s).1.visible = true ∧
      env.hasFocus = true ∧ env.selectionEmpty = true ∧
      (∃ r, (readMeasurement env s).1.rect = some r) ∧
      (∃ hr, (readMeasurement env s).1.hostRect = some hr) ∧
      ((readMeasurement env s).2).lastMapOk = some true) := by
  cases hf : env.hasFocus <;> cases hc : env.selectionEmpty <;>
    cases hco : env.coords <;>
      simp [readMeasurement, isCollapsedSelection, hf, hc, hco]

theorem CtrlInv_apply_visible (data : CursorMeasurement) (r hr : Rect)
    (s1 : VCState) (hv : data.visible = true) (hrect : data.rect = some r)
    (hhost : data.hostRect = some hr)
    (hmap : s1.lastMapOk = some true)
    (hatt : s1.destroyed = false → s1.cursorAttached = true)
    (hptimer : overlayVisible s1 = false → s1.phaseTimer = none)
    (hdes : s1.destroyed = false) :
    CtrlInv (applyMeasurement data s1) := by
  unfold applyMeasurement
  rw [hv, hrect, hhost]
  simp only
  split
  · exact ⟨hatt, fun _ => hmap, hptimer⟩
  · split
    · refine ⟨?_, ?_, ?_⟩
      · intro _
        rw [(restartPhaseTimer_frame _).2.2.2.2.2.1]
        exact hatt hdes
      · intro _
        rw [(restartPhaseTimer_frame _).2.2.2.2.2.2.1]
        exact hmap
      · intro hvis
        exfalso
        unfold overlayVisible at hvis
        rw [(restartPhaseTimer_frame _).2.1,
          (restartPhaseTimer_frame _).2.2.2.2.2.1] at hvis
        simp [hatt hdes] at hvis
    · refine ⟨?_, ?_, ?_⟩
      · intro _
        exact hatt hdes
      · intro _
        exact hmap
      · intro hvis
        exfalso
        unfold overlayVisible at hvis
        have hvis2 : (true && s1.cursorAttached) = false := hvis
        rw [hatt hdes] at hvis2
        exact absurd hvis2 (by simp)

theorem flush_C2 (env : Env) (s : VCState) (h : CtrlInv s)
    (hdes : s.destroyed = false) :
    CtrlInv (applyMeasurement (readMeasurement env s).1
      (readMeasurement env s).2) ∧
    (overlayVisible (applyMeasurement (readMeasurement env s).1
        (readMeasurement env s).2) = true →
      env.hasFocus = true ∧ env.selectionEmpty = true) := by
  have hframe := read_frame env s
  rcases read_cases env s with hcase | hcase
  · have hf := applyMeasurement_invisible_fields _ ((readMeasurement env s).2) hcase
    refine ⟨CtrlInv_of_fields _ hf.1 hf.2.2.1 ?_, ?_⟩
    · intro _
      rw [hf.2.2.2.2.1, hframe.2.2.1]
      exact h.1 hdes
    · intro hvis
      rw [not_visible_of_display _ hf.1] at hvis
      exact absurd hvis (by simp)
  · obtain ⟨hv, hfoc, hsel, ⟨r, hrect⟩, ⟨hr, hhost⟩, hmap⟩ := hcase
    have hdes1 : ((readMeasurement env s).2).destroyed = false := by
      rw [hframe.2.2.2.2.2]
      exact hdes
    have hatt1 : ((readMeasurement env s).2).destroyed = false →
        ((readMeasurement env s).2).cursorAttached = true := by
      intro _
      rw [hframe.2.2.1]
      exact h.1 hdes
    have hpt1 : overlayVisible ((readMeasurement env s).2) = false →
        ((readMeasurement env s).2).phaseTimer = none := by
      intro hv1
      rw [hframe.2.2.2.1]
      apply h.2.2
      unfold overlayVisible at hv1 ⊢
      rw [hframe.1, hframe.2.2.1] at hv1
      exact hv1
    exact ⟨CtrlInv_apply_visible _ r hr _ hv hrect hhost hmap hatt1 hpt1 hdes1,
      fun _ => ⟨hfoc, hsel⟩⟩

theorem C2Inv_step (w w2 : World) (hstep : Step w w2) (h : C2Inv w) :
    C2Inv w2 := by
  cases hstep with
  | cmUpdate u env2 hd hfc hsc =>
    by_cases hflags : (u.docChanged || u.selectionSet || u.viewportChanged ||
        u.geometryChanged || u.focusChanged) = true
    · have hu : update u env2 w.ctrl =
          scheduleMeasurement env2
            { forcePosition := some (u.viewportChanged || u.geometryChanged ||
                u.focusChanged || u.docChanged || u.selectionSet),
              restartPhase := some (u.docChanged || u.selectionSet) } w.ctrl := by
        unfold update
        rw [if_pos hflags]
      refine ⟨?_, ?_⟩
      · show CtrlInv (update u env2 w.ctrl)
        rw [hu]
        exact CtrlInv_schedule _ _ _ h.1
      · intro hvis
        rw [show (World.mk (update u env2 w.ctrl) env2).ctrl =
          update u env2 w.ctrl from rfl, hu] at hvis
        exact schedule_visible_env _ _ _ hvis
    · have hu : update u env2 w.ctrl = w.ctrl := by
        unfold update
        rw [if_neg hflags]
      have hdocf : u.docChanged = false := by
        cases hx : u.docChanged
        · rfl
        · exact absurd (by simp [hx]) hflags
      have hself : u.selectionSet = false := by
        cases hx : u.selectionSet
        · rfl
        · exact absurd (by simp [hx]) hflags
      have hfocf : u.focusChanged = false := by
        cases hx : u.focusChanged
        · rfl
        · exact absurd (by simp [hx]) hflags
      refine ⟨?_, ?_⟩
      · show CtrlInv (update u env2 w.ctrl)
        rw [hu]
        exact h.1
      · intro hvis
        rw [show (World.mk (update u env2 w.ctrl) env2).ctrl =
          update u env2 w.ctrl from rfl, hu] at hvis
        have he := h.2 hvis
        have heqf : env2.hasFocus = w.env.hasFocus := by
          by_contra hne
          have hx := hfc hne
          rw [hfocf] at hx
          exact Bool.false_ne_true hx
        have heqs : env2.selectionEmpty = w.env.selectionEmpty := by
          by_contra hne
          rcases hsc (Or.inl hne) with hx | hx
          · rw [hself] at hx
            exact Bool.false_ne_true hx
          · rw [hdocf] at hx
            exact Bool.false_ne_true hx
        exact ⟨by rw [heqf]; exact he.1, by rw [heqs]; exact he.2⟩
  | rafSelectionChange hd =>
    exact ⟨CtrlInv_schedule _ _ _ h.1, fun hvis => schedule_visible_env _ _ _ hvis⟩
  | layoutTrigger env2 hd hf hs hh =>
    exact ⟨CtrlInv_schedule _ _ _ h.1, fun hvis => schedule_visible_env _ _ _ hvis⟩
  | blurEvent hd =>
    refine ⟨CtrlInv_hideCursor _ h.1, ?_⟩
    intro hvis
    rw [show (World.mk (hideCursor w.ctrl) { w.env with hasFocus := false }).ctrl =
      hideCursor w.ctrl from rfl,
      not_visible_of_display _ (hideCursor_display w.ctrl).1] at hvis
    exact absurd hvis (by simp)
  | focusEvent hd =>
    exact ⟨CtrlInv_schedule _ _ _ h.1, fun hvis => schedule_visible_env _ _ _ hvis⟩
  | layoutShift env2 hd hf hs hh =>
    refine ⟨h.1, ?_⟩
    intro hvis
    have he := h.2 hvis
    exact ⟨by rw [hf]; exact he.1, by rw [hs]; exact he.2⟩
  | flush hd hs =>
    have hfl := flush_C2 w.env w.ctrl h.1 hd
    exact ⟨hfl.1, hfl.2⟩
  | timerFire id t hd hp hmem htime =>
    refine ⟨CtrlInv_fire _ h.1, ?_⟩
    intro hvis
    apply h.2
    rcases firePhaseTimer_fields w.ctrl with hf | hf
    · unfold overlayVisible at hvis ⊢
      rw [show (World.mk (firePhaseTimer w.ctrl) w.env).ctrl =
        firePhaseTimer w.ctrl from rfl, hf.1, hf.2.1] at hvis
      exact hvis
    · rw [show (World.mk (firePhaseTimer w.ctrl) w.env).ctrl =
        firePhaseTimer w.ctrl from rfl, hf.1] at hvis
      exact hvis
  | tick d hd =>
    refine ⟨CtrlInv_tick _ _ h.1, ?_⟩
    intro hvis
    exact h.2 hvis
  | destroyEvent hd =>
    refine ⟨CtrlInv_destroy _, ?_⟩
    intro hvis
    rw [show (World.mk (destroy w.ctrl) w.env).ctrl = destroy w.ctrl from rfl,
      not_visible_of_detached _ (destroy_fields w.ctrl).2.1] at hvis
    exact absurd hvis (by simp)

theorem C2Inv_init (env0 : Env) : C2Inv (initWorld env0) := by
  have hbase : CtrlInv initFields := by
    refine ⟨fun _ => rfl, ?_, fun _ => rfl⟩
    intro hvis
    exact absurd hvis (by decide)
  exact ⟨CtrlInv_schedule _ _ _ hbase, fun hvis => schedule_visible_env _ _ _ hvis⟩

theorem C2Inv_reachable (w : World) (h : Reachable w) : C2Inv w := by
  obtain ⟨env0, hsteps⟩ := h
  induction hsteps with
  | refl => exact C2Inv_init env0
  | tail hab hbc ih => exact C2Inv_step _ _ hbc ih

/-- Claim C2 (amended): in every reachable state, if the overlay is
visible then the host has focus, the selection is collapsed, and the last
position-to-rectangle mapping succeeded; and whenever the overlay is not
visible the blink-phase timer is canceled. The converse direction of the
claimed biconditional holds only at flush boundaries, not in every
reachable state (see the counterexample). -/
theorem claim_C2 (w : World) (h : Reachable w) :
    (overlayVisible w.ctrl = true →
      w.env.hasFocus = true ∧ w.env.selectionEmpty = true ∧
      w.ctrl.lastMapOk = some true) ∧
    (overlayVisible w.ctrl = false → w.ctrl.phaseTimer = none) := by
  have hi := C2Inv_reachable w h
  exact ⟨fun hv => ⟨(hi.2 hv).1, (hi.2 hv).2, hi.1.2.1 hv⟩, hi.1.2.2⟩

/-- The initial world over the sample environment. -/
def cexW0 : World := initWorld sampleEnv

/-- After the initial flush: overlay visible at head 7. -/
def cexW1 : World :=
  ⟨applyMeasurement (readMeasurement cexW0.env cexW0.ctrl).1
    (readMeasurement cexW0.env cexW0.ctrl).2, cexW0.env⟩

/-- After the surface loses focus: blur hides the overlay. -/
def cexW2 : World := ⟨hideCursor cexW1.ctrl, { cexW1.env with hasFocus := false }⟩

/-- After focus returns: the focus handler only schedules a measurement,
so the overlay is still hidden although focus, collapsedness and the last
mapping success all hold again. -/
def cexW3 : World :=
  ⟨scheduleMeasurement { cexW2.env with hasFocus := true }
    { forcePosition := some true, restartPhase := some true } cexW2.ctrl,
  { cexW2.env with hasFocus := true }⟩

theorem cexW1_step : Step cexW0 cexW1 :=
  Step.flush cexW0 (by decide) (by decide)

theorem cex_steps : Relation.ReflTransGen Step cexW0 cexW3 := by
  have s2 : Step cexW1 cexW2 := Step.blurEvent cexW1 (by decide)
  have s3 : Step cexW2 cexW3 := Step.focusEvent cexW2 (by decide)
  exact Relation.ReflTransGen.tail (Relation.ReflTransGen.tail
    (Relation.ReflTransGen.tail Relation.ReflTransGen.refl cexW1_step) s2) s3

/-- Claim C2 counterexample: the biconditional form of the invariant is
false: in the reachable world `cexW3` the host has focus, the selection is
collapsed, and the last mapping succeeded, yet the overlay is hidden
(blur hid it; the focus handler only scheduled the re-measurement, which
has not flushed yet). -/
theorem claim_C2_counterexample :
    ¬ (∀ w : World, Reachable w →
        (overlayVisible w.ctrl = true ↔
          (w.env.hasFocus = true ∧ w.env.selectionEmpty = true ∧
            w.ctrl.lastMapOk = some true))) := by
  intro hall
  have hreach : Reachable cexW3 := ⟨sampleEnv, cex_steps⟩
  have h := (hall cexW3 hreach).mpr (by decide)
  exact absurd h (by decide)

/-- Claim C2 witness: the amended invariant, instantiated at the concrete
reachable visible world `cexW1`. -/
theorem claim_C2_witness :
    Reachable cexW1 ∧
    ((overlayVisible cexW1.ctrl = true →
        cexW1.env.hasFocus = true ∧ cexW1.env.selectionEmpty = true ∧
        cexW1.ctrl.lastMapOk = some true) ∧
      (overlayVisible cexW1.ctrl = false → cexW1.ctrl.phaseTimer = none)) := by
  have hreach : Reachable cexW1 := ⟨sampleEnv,
    Relation.ReflTransGen.tail Relation.ReflTransGen.refl cexW1_step⟩
  exact ⟨hreach, claim_C2 cexW1 hreach⟩
